import Mathlib

/-!
Verification development for the multi-key/multi-model failover client
(`SmartClient`) of the ORACLE_AI_PHARMACY_CHATBOT repository, shallowly
embedded from `src/chatbot/smart_client.py`.

Modelling conventions:
* Wall-clock time (`datetime.now()`) is an explicit `Nat` parameter measured
  in seconds; the 5-minute cooldown `timedelta(minutes=5)` becomes the
  constant 300 seconds, and `datetime` subtraction becomes truncated `Nat`
  subtraction (all reachable comparisons have `now` at or after the stored
  failure time).
* The `combination_status` Python dict keyed by the strings
  `f"key_{key_idx+1}_{model}"` is modelled as a total function from the key
  string to a status record; keys never inserted simply stay at the initial
  record, which no client operation can observe.
* The external model call `client.models.generate_content(...)` is abstracted
  by an oracle `Nat → CallOutcome` giving the outcome of the n-th attempt of
  a `generate` call; the prompt, temperature and max-token arguments only
  flow into that external call and do not influence the control flow.
* Python string lowering `str(e).lower()` is modelled with `Char.toLower`.
-/

namespace SmartClient

/-- Prefix test on character lists, used to model the Python substring test. -/
def charsPrefixOf : List Char → List Char → Bool
  | [], _ => true
  | _ :: _, [] => false
  | a :: as, b :: bs => a = b && charsPrefixOf as bs

/-- Infix test on character lists: does the first list occur contiguously in the second? -/
def charsInfixOf (p : List Char) : List Char → Bool
  | [] => charsPrefixOf p []
  | b :: bs' => charsPrefixOf p (b :: bs') || charsInfixOf p bs'

/-- The Python `sub in s` substring containment on strings. -/
def strContains (s sub : String) : Bool :=
  charsInfixOf sub.toList s.toList

/-- The Python `str.lower()` operation (ASCII model). -/
def lowerStr (s : String) : String :=
  String.mk (s.toList.map Char.toLower)

/-- The `status` field values of a combination record in `smart_client.py`:
`"untested" | "working" | "quota_exceeded" | "auth_error" | "error"`. -/
inductive ComboState where
  | untested
  | working
  | quotaExceeded
  | authError
  | error
  deriving DecidableEq

/-- One record of the `combination_status` dict (smart_client.py lines 50-57). -/
structure ComboStatus where
  status : ComboState
  lastSuccess : Option Nat
  lastFailure : Option Nat
  successCount : Nat
  failureCount : Nat
  consecutiveFailures : Nat
  deriving DecidableEq

/-- The initial record given to each combination (lines 50-57 and 264-271). -/
def initComboStatus : ComboStatus :=
  { status := ComboState.untested
    lastSuccess := none
    lastFailure := none
    successCount := 0
    failureCount := 0
    consecutiveFailures := 0 }

/-- The error classification produced inside `generate` (lines 220-236):
`"quota" | "auth" | "model_not_found" | "other"`. -/
inductive ErrorType where
  | quota
  | auth
  | modelNotFound
  | other
  deriving DecidableEq

/-- The quota phrase set of `generate` (lines 220-223). -/
def quotaPhrases : List String :=
  ["quota", "rate limit", "429", "resource exhausted", "too many requests"]

/-- The auth phrase set of `generate` (lines 226-228). -/
def authPhrases : List String :=
  ["api key", "authentication", "unauthorized", "invalid key"]

/-- Error classification from `generate` (lines 217-236): the error text is
lowercased and matched against the quota phrases, then the auth phrases, then
the 404/not-found pattern; anything else is `other`. -/
def classifyError (msg : String) : ErrorType :=
  let errorMsg := lowerStr msg
  if quotaPhrases.any (fun p => strContains errorMsg p) then ErrorType.quota
  else if authPhrases.any (fun p => strContains errorMsg p) then ErrorType.auth
  else if strContains errorMsg ("404") || strContains errorMsg ("not found") then
    ErrorType.modelNotFound
  else ErrorType.other

/-- The quota cooldown window `timedelta(minutes=5)` (line 113), in seconds. -/
def cooldownSeconds : Nat := 300

/-- `_update_combo_status` (lines 80-100), acting on one status record. -/
def updateComboStatusRecord (now : Nat) (success : Bool)
    (errorType : Option ErrorType) (st : ComboStatus) : ComboStatus :=
  if success then
    { st with
      status := ComboState.working
      lastSuccess := some now
      successCount := st.successCount + 1
      consecutiveFailures := 0 }
  else
    let st' :=
      { st with
        lastFailure := some now
        failureCount := st.failureCount + 1
        consecutiveFailures := st.consecutiveFailures + 1 }
    match errorType with
    | some ErrorType.quota => { st' with status := ComboState.quotaExceeded }
    | some ErrorType.auth => { st' with status := ComboState.authError }
    | _ => { st' with status := ComboState.error }

/-- `_should_skip_combo` (lines 102-122) on one status record. A
`quota_exceeded` record with a last-failure time is skipped unless the
cooldown has elapsed; a `quota_exceeded` record with no last-failure time
falls through to the consecutive-failures check, exactly as the Python
if-chain does. -/
def shouldSkipCombo (now : Nat) (st : ComboStatus) : Bool :=
  if st.status = ComboState.untested then false
  else if st.status = ComboState.working then false
  else
    match st.status, st.lastFailure with
    | ComboState.quotaExceeded, some lastFailure =>
      if now - lastFailure > cooldownSeconds then false else true
    | _, _ =>
      if st.status = ComboState.authError then true
      else if st.consecutiveFailures ≥ 3 then true
      else false

/-- The mutable state of a `SmartClient` instance (`__init__`, lines 16-71):
the loaded API keys, the configured model list, the per-combination status
map, the cursor, and the four aggregate request counters. -/
structure SCState where
  apiKeys : List String
  models : List String
  combinationStatus : String → ComboStatus
  currentKeyIndex : Nat
  currentModelIndex : Nat
  totalRequests : Nat
  successfulRequests : Nat
  failedRequests : Nat
  failoverCount : Nat

/-- Default model name used to make list indexing total; indices stay in
range in every reachable state, so the default is never observed. -/
def emptyModelName : String := ""

/-- `self.models[i]`, totalised. -/
def modelAt (s : SCState) (i : Nat) : String :=
  s.models.getD i emptyModelName

/-- `_get_combo_key` (lines 77-78): `f"key_{key_idx+1}_{model}"`. -/
def getComboKey (keyIdx : Nat) (model : String) : String :=
  "key_" ++ Nat.repr (keyIdx + 1) ++ "_" ++ model

/-- `_update_combo_status` (lines 80-100) at the state level: rewrite the
record stored under the dict key of the combination. -/
def updateComboStatus (s : SCState) (now : Nat) (keyIdx : Nat) (model : String)
    (success : Bool) (errorType : Option ErrorType) : SCState :=
  { s with
    combinationStatus := fun key =>
      if key = getComboKey keyIdx model then
        updateComboStatusRecord now success errorType (s.combinationStatus key)
      else s.combinationStatus key }

/-- One cursor advance of `_find_next_combination` (lines 129-136): bump the
model index, wrap to the next key when models are exhausted, wrap the key
back to 0 after the last key. -/
def advanceCursor (numKeys numModels ki mi : Nat) : Nat × Nat :=
  let mi' := mi + 1
  if mi' ≥ numModels then
    let ki' := ki + 1
    if ki' ≥ numKeys then (0, 0) else (ki', 0)
  else (ki, mi')

/-- The search loop of `_find_next_combination` (lines 124-147): repeatedly
advance the cursor and test the skip rule; the fuel plays the role of the
`attempts < max_attempts` counter, which counts only skipped candidates.
Returns the found combination (if any) together with the final cursor. -/
def findNextAux (skip : Nat → Nat → Bool) (numKeys numModels : Nat) :
    Nat → Nat → Nat → Option (Nat × Nat) × Nat × Nat
  | 0, ki, mi => (none, ki, mi)
  | fuel + 1, ki, mi =>
    let c := advanceCursor numKeys numModels ki mi
    if skip c.1 c.2 then findNextAux skip numKeys numModels fuel c.1 c.2
    else (some c, c.1, c.2)

/-- `_find_next_combination` (lines 124-147) at the state level. The
`_configure_key` call only swaps the underlying network client and has no
modelled effect. -/
def findNextCombination (s : SCState) (now : Nat) : Option (Nat × Nat) × SCState :=
  let r := findNextAux
    (fun k m => shouldSkipCombo now (s.combinationStatus (getComboKey k (modelAt s m))))
    s.apiKeys.length s.models.length
    (s.apiKeys.length * s.models.length)
    s.currentKeyIndex s.currentModelIndex
  (r.1, { s with currentKeyIndex := r.2.1, currentModelIndex := r.2.2 })

/-- Outcome of one external model call, as observed by `generate`. -/
inductive CallOutcome where
  | ok : String → CallOutcome
  | err : String → CallOutcome
  deriving DecidableEq

/-- Result of a `generate` call: the returned text, a re-raised auth
exception, the exhaustion exception, or the defensive internal error at the
end of the loop (lines 259-260). -/
inductive GenResult where
  | success : String → GenResult
  | authFailure : String → GenResult
  | exhausted : String → GenResult
  | internalError : GenResult
  deriving DecidableEq

/-- The exhaustion exception message (lines 252-255). -/
def exhaustedMessage (n : Nat) : String :=
  "All " ++ Nat.repr n ++ " API key-model combinations exhausted.\n" ++
    "Try again later or add more API keys."

/-- The retry loop of `generate` (lines 187-257): `fuel` is the number of
remaining iterations (`max_failovers - attempt`) and `attempt` the 1-based
attempt counter used to index the oracle of external call outcomes. -/
def generateLoop (oracle : Nat → CallOutcome) (now : Nat) (maxFailovers : Nat) :
    Nat → Nat → SCState → GenResult × SCState
  | 0, _, s => (GenResult.internalError, { s with failedRequests := s.failedRequests + 1 })
  | fuel + 1, attempt, s =>
    let attempt' := attempt + 1
    let modelName := modelAt s s.currentModelIndex
    match oracle attempt' with
    | CallOutcome.ok text =>
      let s' := updateComboStatus s now s.currentKeyIndex modelName true none
      (GenResult.success text, { s' with successfulRequests := s'.successfulRequests + 1 })
    | CallOutcome.err msg =>
      let errorType := classifyError msg
      let s' := updateComboStatus s now s.currentKeyIndex modelName false (some errorType)
      if errorType = ErrorType.auth then (GenResult.authFailure msg, s')
      else
        let r := findNextCombination s' now
        match r.1 with
        | none =>
          (GenResult.exhausted (exhaustedMessage maxFailovers),
            { r.2 with failedRequests := r.2.failedRequests + 1 })
        | some _ =>
          generateLoop oracle now maxFailovers fuel attempt'
            { r.2 with failoverCount := r.2.failoverCount + 1 }

/-- `generate` (lines 181-260): bump `total_requests`, then run the retry
loop with `max_failovers = len(api_keys) * len(models)` iterations. -/
def generate (s : SCState) (now : Nat) (oracle : Nat → CallOutcome) :
    GenResult × SCState :=
  generateLoop oracle now (s.apiKeys.length * s.models.length)
    (s.apiKeys.length * s.models.length) 0
    { s with totalRequests := s.totalRequests + 1 }

/-- `reset` (lines 262-277): every combination record back to the initial
record, cursor back to (0,0). The aggregate request counters are not
touched by the source. -/
def resetClient (s : SCState) : SCState :=
  { s with
    combinationStatus := fun _ => initComboStatus
    currentKeyIndex := 0
    currentModelIndex := 0 }

/-- The hardcoded model list (lines 37-41). -/
def hardcodedModels : List String :=
  ["models/gemini-2.0-flash", "models/gemini-2.5-flash", "models/gemini-2.0-flash-001"]

/-- `__init__` (lines 16-71) for a given non-empty key list: all records
untested, cursor at (0,0), counters zero. -/
def initSmartClient (apiKeys : List String) : SCState :=
  { apiKeys := apiKeys
    models := hardcodedModels
    combinationStatus := fun _ => initComboStatus
    currentKeyIndex := 0
    currentModelIndex := 0
    totalRequests := 0
    successfulRequests := 0
    failedRequests := 0
    failoverCount := 0 }

/-- The dict keys tracked by the client: one per (key index, model) pair. -/
def comboKeysList (s : SCState) : List String :=
  ((List.range s.apiKeys.length).map (fun k => s.models.map (fun m => getComboKey k m))).flatten

/-- Number of tracked combinations currently in a given state. -/
def countStatus (s : SCState) (target : ComboState) : Nat :=
  (comboKeysList s).countP (fun key => (s.combinationStatus key).status == target)

/-- The structure returned by `get_current_status` (lines 149-179). -/
structure StatusReport where
  currentKey : Nat
  currentModel : String
  totalKeys : Nat
  totalModels : Nat
  totalCombinations : Nat
  workingCombinations : Nat
  quotaExceededCombinations : Nat
  totalRequests : Nat
  successfulRequests : Nat
  failedRequests : Nat
  failoverCount : Nat
  successRate : ℚ

/-- `get_current_status` (lines 149-179); the success rate is the exact
rational `successful_requests / total_requests * 100`, 0 when no request
was made. -/
def getCurrentStatus (s : SCState) : StatusReport :=
  { currentKey := s.currentKeyIndex + 1
    currentModel := modelAt s s.currentModelIndex
    totalKeys := s.apiKeys.length
    totalModels := s.models.length
    totalCombinations := s.apiKeys.length * s.models.length
    workingCombinations := countStatus s ComboState.working
    quotaExceededCombinations := countStatus s ComboState.quotaExceeded
    totalRequests := s.totalRequests
    successfulRequests := s.successfulRequests
    failedRequests := s.failedRequests
    failoverCount := s.failoverCount
    successRate :=
      if s.totalRequests > 0 then
        (s.successfulRequests : ℚ) / (s.totalRequests : ℚ) * 100
      else 0 }

/-- A combination record as produced by an auth-classified failure at time 0. -/
def authErrRecord : ComboStatus :=
  { status := ComboState.authError
    lastSuccess := none
    lastFailure := some 0
    successCount := 0
    failureCount := 1
    consecutiveFailures := 1 }

/-- A combination record as produced by a quota-classified failure at time 0. -/
def quotaCooldownRecord : ComboStatus :=
  { status := ComboState.quotaExceeded
    lastSuccess := none
    lastFailure := some 0
    successCount := 0
    failureCount := 1
    consecutiveFailures := 1 }

/-- A one-key client in which every combination is in the auth-error state. -/
def clientAllAuth : SCState :=
  { initSmartClient ["k1"] with combinationStatus := fun _ => authErrRecord }

/-- The client state after one fresh `generate` call whose model calls all
fail with a quota-classified error (the call ends exhausted). -/
def clientAfterRateLimit : SCState :=
  (generate (initSmartClient ["k1"]) 0 (fun _ => CallOutcome.err ("quota"))).2

/-- The client state after one fresh `generate` call whose first model call
fails with an auth-classified error (the call re-raises immediately). -/
def clientAfterAuth : SCState :=
  (generate (initSmartClient ["k1"]) 0 (fun _ => CallOutcome.err ("invalid key"))).2

/-- A client state with 4 total requests, 3 of them successful. -/
def statusDemoState : SCState :=
  { initSmartClient ["k1"] with totalRequests := 4, successfulRequests := 3 }

/-! ## Helper lemmas -/

theorem shouldSkip_of_authError (now : Nat) (st : ComboStatus)
    (h : st.status = ComboState.authError) : shouldSkipCombo now st = true := by
  cases hlf : st.lastFailure <;> simp [shouldSkipCombo, h, hlf]

theorem shouldSkip_of_quota_within (now lastF : Nat) (st : ComboStatus)
    (h : st.status = ComboState.quotaExceeded) (hlf : st.lastFailure = some lastF)
    (hc : now - lastF ≤ cooldownSeconds) : shouldSkipCombo now st = true := by
  simp [shouldSkipCombo, h, hlf, cooldownSeconds] at hc ⊢
  omega

theorem pos_lt_total (K M ki mi : Nat) (hki : ki < K) (hmi : mi < M) :
    ki * M + mi < K * M := by
  have h2 : ki * M + M = (ki + 1) * M := by ring
  have h3 : (ki + 1) * M ≤ K * M := Nat.mul_le_mul_right M hki
  omega

theorem advanceCursor_lt (K M ki mi : Nat) (hki : ki < K) (hmi : mi < M) :
    (advanceCursor K M ki mi).1 < K ∧ (advanceCursor K M ki mi).2 < M := by
  by_cases h1 : mi + 1 ≥ M
  · by_cases h2 : ki + 1 ≥ K
    · simp only [advanceCursor, h1, h2, if_true]
      exact ⟨by omega, by omega⟩
    · simp only [advanceCursor, if_pos h1, if_neg h2]
      exact ⟨by omega, by omega⟩
  · simp only [advanceCursor, if_neg h1]
    exact ⟨hki, by omega⟩

theorem advanceCursor_pos (K M ki mi : Nat) (hki : ki < K) (hmi : mi < M) :
    (advanceCursor K M ki mi).1 * M + (advanceCursor K M ki mi).2
      = (ki * M + mi + 1) % (K * M) := by
  by_cases h1 : mi + 1 ≥ M
  · by_cases h2 : ki + 1 ≥ K
    · have hk : ki + 1 = K := by omega
      have he : ki * M + mi + 1 = K * M := by
        calc ki * M + mi + 1 = ki * M + M := by omega
          _ = (ki + 1) * M := by ring
          _ = K * M := by rw [hk]
      simp only [advanceCursor, if_pos h1, if_pos h2, he, Nat.mod_self]
      simp
    · have he : ki * M + mi + 1 = (ki + 1) * M := by
        calc ki * M + mi + 1 = ki * M + M := by omega
          _ = (ki + 1) * M := by ring
      have hlt : (ki + 1) * M < K * M := by
        have h3 : (ki + 1 + 1) * M ≤ K * M := Nat.mul_le_mul_right M (by omega)
        have h4 : (ki + 1 + 1) * M = (ki + 1) * M + M := by ring
        omega
      simp only [advanceCursor, if_pos h1, if_neg h2, he, Nat.mod_eq_of_lt hlt]
      simp
  · have hlt : ki * M + mi + 1 < K * M := by
      have := pos_lt_total K M ki (mi + 1) hki (by omega)
      omega
    simp only [advanceCursor, if_neg h1, Nat.mod_eq_of_lt hlt]
    omega

theorem findNextAux_some_cursor (skip : Nat → Nat → Bool) (K M : Nat) :
    ∀ (fuel ki mi : Nat) (c : Nat × Nat),
      (findNextAux skip K M fuel ki mi).1 = some c →
      (findNextAux skip K M fuel ki mi).2 = c := by
  intro fuel
  induction fuel with
  | zero => intro ki mi c h; simp [findNextAux] at h
  | succ n ih =>
    intro ki mi c h
    by_cases hs : skip (advanceCursor K M ki mi).1 (advanceCursor K M ki mi).2 = true
    · simp only [findNextAux, hs, if_true] at h ⊢
      exact ih _ _ c h
    · simp only [findNextAux, hs, if_false, Bool.false_eq_true] at h ⊢
      simp only [Option.some.injEq] at h
      simp [← h]

theorem findNextAux_none_pos (skip : Nat → Nat → Bool) (K M : Nat) :
    ∀ (fuel ki mi : Nat), ki < K → mi < M →
      (findNextAux skip K M fuel ki mi).1 = none →
      (findNextAux skip K M fuel ki mi).2.1 < K ∧
      (findNextAux skip K M fuel ki mi).2.2 < M ∧
      (findNextAux skip K M fuel ki mi).2.1 * M + (findNextAux skip K M fuel ki mi).2.2
        = (ki * M + mi + fuel) % (K * M) := by
  intro fuel
  induction fuel with
  | zero =>
    intro ki mi hki hmi _
    refine ⟨hki, hmi, ?_⟩
    simp [findNextAux, Nat.mod_eq_of_lt (pos_lt_total K M ki mi hki hmi)]
  | succ n ih =>
    intro ki mi hki hmi hnone
    obtain ⟨ha1, ha2⟩ := advanceCursor_lt K M ki mi hki hmi
    by_cases hs : skip (advanceCursor K M ki mi).1 (advanceCursor K M ki mi).2 = true
    · simp only [findNextAux, hs, if_true] at hnone ⊢
      obtain ⟨hr1, hr2, hr3⟩ := ih _ _ ha1 ha2 hnone
      refine ⟨hr1, hr2, ?_⟩
      rw [hr3, advanceCursor_pos K M ki mi hki hmi, Nat.mod_add_mod]
      congr 1
      omega
    · simp only [findNextAux, hs, if_false, Bool.false_eq_true] at hnone
      simp at hnone

theorem findNextAux_all_skip (skip : Nat → Nat → Bool) (K M : Nat)
    (hall : ∀ k m, k < K → m < M → skip k m = true) :
    ∀ (fuel ki mi : Nat), ki < K → mi < M →
      (findNextAux skip K M fuel ki mi).1 = none := by
  intro fuel
  induction fuel with
  | zero => intro ki mi _ _; simp [findNextAux]
  | succ n ih =>
    intro ki mi hki hmi
    obtain ⟨ha1, ha2⟩ := advanceCursor_lt K M ki mi hki hmi
    have hs := hall _ _ ha1 ha2
    simp only [findNextAux, hs, if_true]
    exact ih _ _ ha1 ha2

theorem generateLoop_step_success (oracle : Nat → CallOutcome) (now maxF fuel attempt : Nat)
    (s : SCState) (text : String)
    (h1 : oracle (attempt + 1) = CallOutcome.ok text) :
    generateLoop oracle now maxF (fuel + 1) attempt s
      = (GenResult.success text,
         { updateComboStatus s now s.currentKeyIndex (modelAt s s.currentModelIndex) true none
            with successfulRequests :=
              (updateComboStatus s now s.currentKeyIndex (modelAt s s.currentModelIndex)
                true none).successfulRequests + 1 }) := by
  simp only [generateLoop, h1]

theorem generateLoop_step_exhaust (oracle : Nat → CallOutcome) (now maxF fuel attempt : Nat)
    (s : SCState) (msg : String)
    (h1 : oracle (attempt + 1) = CallOutcome.err msg)
    (hna : ¬ classifyError msg = ErrorType.auth)
    (hnone : (findNextCombination
        (updateComboStatus s now s.currentKeyIndex (modelAt s s.currentModelIndex) false
          (some (classifyError msg))) now).1 = none) :
    generateLoop oracle now maxF (fuel + 1) attempt s
      = (GenResult.exhausted (exhaustedMessage maxF),
         { (findNextCombination
              (updateComboStatus s now s.currentKeyIndex (modelAt s s.currentModelIndex) false
                (some (classifyError msg))) now).2
            with failedRequests :=
              (findNextCombination
                (updateComboStatus s now s.currentKeyIndex (modelAt s s.currentModelIndex) false
                  (some (classifyError msg))) now).2.failedRequests + 1 }) := by
  simp only [generateLoop, h1, if_neg hna, hnone]

theorem pos_unique (M ki mi ki' mi' : Nat) (hmi : mi < M) (hmi' : mi' < M)
    (h : ki' * M + mi' = ki * M + mi) : ki' = ki ∧ mi' = mi := by
  have hM : 0 < M := by omega
  have e1 : (mi' + ki' * M) / M = ki' := by
    rw [Nat.add_mul_div_right _ _ hM, Nat.div_eq_of_lt hmi']
    omega
  have e2 : (mi + ki * M) / M = ki := by
    rw [Nat.add_mul_div_right _ _ hM, Nat.div_eq_of_lt hmi]
    omega
  have hcomm : mi' + ki' * M = mi + ki * M := by omega
  have hk : ki' = ki := by rw [← e1, ← e2, hcomm]
  refine ⟨hk, ?_⟩
  subst hk
  omega

theorem findNext_none_of_all_skip (s : SCState) (now : Nat)
    (hki : s.currentKeyIndex < s.apiKeys.length)
    (hmi : s.currentModelIndex < s.models.length)
    (hall : ∀ k m, k < s.apiKeys.length → m < s.models.length →
      shouldSkipCombo now (s.combinationStatus (getComboKey k (modelAt s m))) = true) :
    (findNextCombination s now).1 = none :=
  findNextAux_all_skip _ s.apiKeys.length s.models.length hall
    (s.apiKeys.length * s.models.length) s.currentKeyIndex s.currentModelIndex hki hmi

/-! ## Claim theorems -/

/-- C6: the next-combination search commits a cursor move only to a found
eligible combination: if the search returns a combination, the cursor ends
on exactly that combination; if it returns none (the exhaustion case of
`generate`), the cursor ends with the same value it had before the search —
the `max_attempts = K*M` advances wrap the row-major cursor ring exactly
once, back to its starting point. -/
theorem findNext_cursor_frame (s : SCState) (now : Nat)
    (hki : s.currentKeyIndex < s.apiKeys.length)
    (hmi : s.currentModelIndex < s.models.length) :
    ((findNextCombination s now).1 = none →
      (findNextCombination s now).2.currentKeyIndex = s.currentKeyIndex ∧
      (findNextCombination s now).2.currentModelIndex = s.currentModelIndex) ∧
    (∀ c : Nat × Nat, (findNextCombination s now).1 = some c →
      (findNextCombination s now).2.currentKeyIndex = c.1 ∧
      (findNextCombination s now).2.currentModelIndex = c.2) := by
  constructor
  · intro hnone
    have hn : (findNextAux
        (fun k m => shouldSkipCombo now (s.combinationStatus (getComboKey k (modelAt s m))))
        s.apiKeys.length s.models.length (s.apiKeys.length * s.models.length)
        s.currentKeyIndex s.currentModelIndex).1 = none := hnone
    obtain ⟨hr1, hr2, hr3⟩ := findNextAux_none_pos
      (fun k m => shouldSkipCombo now (s.combinationStatus (getComboKey k (modelAt s m))))
      s.apiKeys.length s.models.length (s.apiKeys.length * s.models.length)
      s.currentKeyIndex s.currentModelIndex hki hmi hn
    rw [Nat.add_mod_right,
      Nat.mod_eq_of_lt (pos_lt_total _ _ _ _ hki hmi)] at hr3
    have hu := pos_unique s.models.length s.currentKeyIndex s.currentModelIndex
      _ _ hmi hr2 hr3
    exact ⟨hu.1, hu.2⟩
  · intro c hc
    have h2 := findNextAux_some_cursor
      (fun k m => shouldSkipCombo now (s.combinationStatus (getComboKey k (modelAt s m))))
      s.apiKeys.length s.models.length (s.apiKeys.length * s.models.length)
      s.currentKeyIndex s.currentModelIndex c hc
    exact ⟨congrArg Prod.fst h2, congrArg Prod.snd h2⟩

/-- C6 witness: on a one-key client whose combinations are all in the
auth-error state the search finds nothing, and the cursor keeps its value. -/
theorem findNext_cursor_frame_witness :
    (findNextCombination clientAllAuth 0).1 = none ∧
    (findNextCombination clientAllAuth 0).2.currentKeyIndex = 0 ∧
    (findNextCombination clientAllAuth 0).2.currentModelIndex = 0 := by
  have h := (findNext_cursor_frame clientAllAuth 0 (by decide) (by decide)).1 (by decide)
  exact ⟨by decide, h.1, h.2⟩

/-- C1 (amended): if every combination is in the auth-error state and the
model call of the current attempt fails with a quota-classified (non-auth) error,
`generate` fails exhausted after that one model call and at most K*M search
candidates, the exhaustion message reports the K*M combination count,
`failed_requests` increments by exactly 1, and `failover_count` is unchanged
because no cursor advance is committed. (If the in-call failure is
auth-classified instead, the auth error is re-raised — see the
counterexample.) -/
theorem generate_exhausts_on_all_auth (s : SCState) (now : Nat)
    (oracle : Nat → CallOutcome) (msg : String)
    (hK : 0 < s.apiKeys.length) (hM : 0 < s.models.length)
    (hki : s.currentKeyIndex < s.apiKeys.length)
    (hmi : s.currentModelIndex < s.models.length)
    (hall : ∀ k ∈ List.range s.apiKeys.length, ∀ m ∈ List.range s.models.length,
      (s.combinationStatus (getComboKey k (modelAt s m))).status = ComboState.authError)
    (h1 : oracle 1 = CallOutcome.err msg)
    (hq : classifyError msg = ErrorType.quota) :
    (generate s now oracle).1
      = GenResult.exhausted (exhaustedMessage (s.apiKeys.length * s.models.length)) ∧
    (generate s now oracle).2.failedRequests = s.failedRequests + 1 ∧
    (generate s now oracle).2.failoverCount = s.failoverCount ∧
    (generate s now oracle).2.totalRequests = s.totalRequests + 1 := by
  obtain ⟨f, hf⟩ : ∃ f, s.apiKeys.length * s.models.length = f + 1 :=
    ⟨s.apiKeys.length * s.models.length - 1, by have := Nat.mul_pos hK hM; omega⟩
  have hfuel : generate s now oracle
      = generateLoop oracle now (s.apiKeys.length * s.models.length) (f + 1) 0
          { s with totalRequests := s.totalRequests + 1 } := by
    show generateLoop oracle now (s.apiKeys.length * s.models.length)
        (s.apiKeys.length * s.models.length) 0
        { s with totalRequests := s.totalRequests + 1 } = _
    rw [hf]
  have hna : ¬ classifyError msg = ErrorType.auth := by
    rw [hq]
    exact fun hc => nomatch hc
  have hnone : (findNextCombination
      (updateComboStatus { s with totalRequests := s.totalRequests + 1 } now
        s.currentKeyIndex (modelAt s s.currentModelIndex)
        false (some (classifyError msg))) now).1 = none := by
    apply findNext_none_of_all_skip
    · exact hki
    · exact hmi
    · intro k m hk hm
      show shouldSkipCombo now
        (if getComboKey k (modelAt s m)
            = getComboKey s.currentKeyIndex (modelAt s s.currentModelIndex) then
          updateComboStatusRecord now false (some (classifyError msg))
            (s.combinationStatus (getComboKey k (modelAt s m)))
        else s.combinationStatus (getComboKey k (modelAt s m))) = true
      by_cases hkey : getComboKey k (modelAt s m)
          = getComboKey s.currentKeyIndex (modelAt s s.currentModelIndex)
      · rw [if_pos hkey, hq]
        exact shouldSkip_of_quota_within now now _
          (by simp [updateComboStatusRecord]) (by simp [updateComboStatusRecord]) (by omega)
      · rw [if_neg hkey]
        exact shouldSkip_of_authError now _
          (hall k (List.mem_range.mpr hk) m (List.mem_range.mpr hm))
  have hstep := generateLoop_step_exhaust oracle now
    (s.apiKeys.length * s.models.length) f 0
    { s with totalRequests := s.totalRequests + 1 } msg h1 hna hnone
  refine ⟨?_, ?_, ?_, ?_⟩ <;> rw [hfuel, hstep] <;> rfl

/-- C1 witness: a one-key client with every combination in the auth-error
state and a quota-classified model failure ends exhausted with the message
naming the 3 combinations, one failed request, and no failover count. -/
theorem generate_exhausts_on_all_auth_witness :
    (generate clientAllAuth 7 (fun _ => CallOutcome.err ("quota"))).1
      = GenResult.exhausted (exhaustedMessage 3) ∧
    (generate clientAllAuth 7 (fun _ => CallOutcome.err ("quota"))).2.failedRequests = 1 ∧
    (generate clientAllAuth 7 (fun _ => CallOutcome.err ("quota"))).2.failoverCount = 0 := by
  have h := generate_exhausts_on_all_auth clientAllAuth 7
    (fun _ => CallOutcome.err ("quota")) ("quota")
    (by decide) (by decide) (by decide) (by decide) (by decide) rfl (by decide)
  exact ⟨h.1, h.2.1, h.2.2.1⟩

/-- C1 counterexample: with every combination in the auth-error state, the
first model call is still made; when it fails with an auth-classified error,
`generate` re-raises the auth error instead of failing exhausted, and
`failed_requests` is not incremented — refuting the claim as stated. -/
theorem generate_all_auth_raises_auth :
    (generate clientAllAuth 0 (fun _ => CallOutcome.err ("invalid key"))).1
      = GenResult.authFailure ("invalid key") ∧
    (generate clientAllAuth 0 (fun _ => CallOutcome.err ("invalid key"))).1
      ≠ GenResult.exhausted (exhaustedMessage 3) ∧
    (generate clientAllAuth 0 (fun _ => CallOutcome.err ("invalid key"))).2.failedRequests
      = 0 := by
  decide

/-- C10: the first attempt of every `generate` call goes to the combination
under the cursor with no skip-rule consultation: for any state — including
one whose cursor combination is marked auth-error or quota-limited — a
successful first outcome is returned and recorded on exactly the cursor
combination, and the cursor does not move. -/
theorem generate_first_attempt_bypasses_skip (s : SCState) (now : Nat)
    (oracle : Nat → CallOutcome) (text : String)
    (hK : 0 < s.apiKeys.length) (hM : 0 < s.models.length)
    (h1 : oracle 1 = CallOutcome.ok text) :
    (generate s now oracle).1 = GenResult.success text ∧
    ((generate s now oracle).2.combinationStatus
        (getComboKey s.currentKeyIndex (modelAt s s.currentModelIndex))).status
      = ComboState.working ∧
    ((generate s now oracle).2.combinationStatus
        (getComboKey s.currentKeyIndex (modelAt s s.currentModelIndex))).successCount
      = (s.combinationStatus
          (getComboKey s.currentKeyIndex (modelAt s s.currentModelIndex))).successCount + 1 ∧
    (generate s now oracle).2.currentKeyIndex = s.currentKeyIndex ∧
    (generate s now oracle).2.currentModelIndex = s.currentModelIndex := by
  obtain ⟨f, hf⟩ : ∃ f, s.apiKeys.length * s.models.length = f + 1 :=
    ⟨s.apiKeys.length * s.models.length - 1, by have := Nat.mul_pos hK hM; omega⟩
  have hfuel : generate s now oracle
      = generateLoop oracle now (s.apiKeys.length * s.models.length) (f + 1) 0
          { s with totalRequests := s.totalRequests + 1 } := by
    show generateLoop oracle now (s.apiKeys.length * s.models.length)
        (s.apiKeys.length * s.models.length) 0
        { s with totalRequests := s.totalRequests + 1 } = _
    rw [hf]
  have hstep := generateLoop_step_success oracle now
    (s.apiKeys.length * s.models.length) f 0
    { s with totalRequests := s.totalRequests + 1 } text h1
  refine ⟨by rw [hfuel, hstep], ?_, ?_,
    by rw [hfuel, hstep]; rfl, by rw [hfuel, hstep]; rfl⟩
  · rw [hfuel, hstep]
    simp [updateComboStatus, updateComboStatusRecord, modelAt]
  · rw [hfuel, hstep]
    simp [updateComboStatus, updateComboStatusRecord, modelAt]

/-- C10 witness: even with every combination (the cursor combination included) in the
skipped auth-error state, the first attempt is issued to the cursor
combination and its success is returned. -/
theorem generate_first_attempt_bypasses_skip_witness :
    (generate clientAllAuth 0 (fun _ => CallOutcome.ok ("hi"))).1
      = GenResult.success ("hi") ∧
    shouldSkipCombo 0 (clientAllAuth.combinationStatus
      (getComboKey 0 (modelAt clientAllAuth 0))) = true := by
  have h := generate_first_attempt_bypasses_skip clientAllAuth 0
    (fun _ => CallOutcome.ok ("hi")) ("hi") (by decide) (by decide) rfl
  exact ⟨h.1, by decide⟩

/-- C2: the claim states the internal-consistency branch at the end of the
`generate` retry loop is unreachable. It is in fact reachable: with one API
key (3 hardcoded models) and three consecutive model-call failures classified
`other` (error text "boom"), every failed combination stays eligible
(`consecutive_failures < 3`), the search keeps succeeding, the attempt
counter reaches `max_failovers`, and the loop falls through to the
internal-consistency branch, also incrementing `failed_requests`. -/
theorem internalError_reachable :
    (generate (initSmartClient ["k1"]) 0 (fun _ => CallOutcome.err ("boom"))).1
      = GenResult.internalError ∧
    (generate (initSmartClient ["k1"]) 0 (fun _ => CallOutcome.err ("boom"))).2.failedRequests
      = 1 := by
  decide

/-- C3 (amended): `reset()` is idempotent and restores every combination
record to the initial untested record and the cursor to (0,0); the
process-wide request counters are left unchanged (the source does not reset
them). -/
theorem reset_idempotent_effects (s : SCState) :
    resetClient (resetClient s) = resetClient s ∧
    (∀ key : String, (resetClient s).combinationStatus key = initComboStatus) ∧
    (resetClient s).currentKeyIndex = 0 ∧
    (resetClient s).currentModelIndex = 0 ∧
    (resetClient s).totalRequests = s.totalRequests ∧
    (resetClient s).successfulRequests = s.successfulRequests ∧
    (resetClient s).failedRequests = s.failedRequests ∧
    (resetClient s).failoverCount = s.failoverCount :=
  ⟨rfl, fun _ => rfl, rfl, rfl, rfl, rfl, rfl, rfl⟩

/-- C3 counterexample: after a reachable `generate` call (all model calls
quota-limited) the total-request counter is 1, and `reset()` leaves it at 1
instead of restoring it to zero as the claim states. -/
theorem reset_does_not_zero_counters :
    (resetClient clientAfterRateLimit).totalRequests = 1 ∧
    (resetClient clientAfterRateLimit).totalRequests ≠ 0 ∧
    (resetClient clientAfterRateLimit).failedRequests ≠ 0 := by
  decide

/-- C4 (amended): a combination record in the auth-error state is skipped at
every time, and recording an outcome for a different combination key never
changes this record; the state can change without `reset()` only when a new
outcome is recorded for this combination itself. -/
theorem authError_always_skipped (st : ComboStatus) (now : Nat)
    (h : st.status = ComboState.authError) :
    shouldSkipCombo now st = true ∧
    (∀ (s : SCState) (now2 k : Nat) (model : String) (success : Bool)
        (et : Option ErrorType) (key : String), key ≠ getComboKey k model →
      (updateComboStatus s now2 k model success et).combinationStatus key
        = s.combinationStatus key) := by
  refine ⟨shouldSkip_of_authError now st h, ?_⟩
  intro s now2 k model success et key hne
  simp [updateComboStatus, hne]

/-- C4 witness: the auth-error record produced by a failure at time 0 is
skipped at time 9. -/
theorem authError_always_skipped_witness :
    shouldSkipCombo 9 authErrRecord = true :=
  (authError_always_skipped authErrRecord 9 rfl).1

/-- C4 counterexample: after an auth failure the cursor combination is in
the auth-error state and skipped, but a later `generate` call (no `reset()`)
still issues its first model call to that combination, and on success the
record returns to `working`, so `shouldSkip` becomes false — refuting
"shouldSkip returns true forever under every subsequent sequence of
operations". -/
theorem authError_skip_not_forever :
    shouldSkipCombo 0
      (clientAfterAuth.combinationStatus (getComboKey 0 ("models/gemini-2.0-flash"))) = true ∧
    shouldSkipCombo 0
      ((generate clientAfterAuth 0 (fun _ => CallOutcome.ok ("hi"))).2.combinationStatus
        (getComboKey 0 ("models/gemini-2.0-flash"))) = false := by
  decide

/-- C5: for a quota-exceeded record with a recorded last-failure time, the
skip check returns false exactly when the elapsed time exceeds the 5-minute
(300 s) cooldown and true when it does not; and evaluating the skip rule
during the next-combination search never changes any combination record. -/
theorem quotaCooldown_correct (st : ComboStatus) (now lastF : Nat)
    (hs : st.status = ComboState.quotaExceeded)
    (hf : st.lastFailure = some lastF) (_hle : lastF ≤ now) :
    (cooldownSeconds < now - lastF → shouldSkipCombo now st = false) ∧
    (now - lastF ≤ cooldownSeconds → shouldSkipCombo now st = true) ∧
    (∀ s : SCState, (findNextCombination s now).2.combinationStatus = s.combinationStatus) := by
  refine ⟨?_, ?_, fun s => rfl⟩
  · intro h
    simp [shouldSkipCombo, hs, hf, cooldownSeconds] at h ⊢
    omega
  · intro h
    exact shouldSkip_of_quota_within now lastF st hs hf h

/-- C5 witness: a quota failure at time 0 is retried at time 301 and still
skipped at time 300. -/
theorem quotaCooldown_correct_witness :
    shouldSkipCombo 301 quotaCooldownRecord = false ∧
    shouldSkipCombo 300 quotaCooldownRecord = true :=
  ⟨(quotaCooldown_correct quotaCooldownRecord 301 0 rfl rfl (by decide)).1 (by decide),
   (quotaCooldown_correct quotaCooldownRecord 300 0 rfl rfl (by decide)).2.1 (by decide)⟩

/-- C7: the error text is classified on its lowercased form by first-match
substring testing — quota phrases win, then auth phrases, then the
404/not-found pattern, else `other`; classification depends only on the
lowercased text (case-insensitivity); and the failure update maps quota to
`quota_exceeded`, auth to `auth_error`, and both not-found and other to the
generic `error` state. -/
theorem errorClassification_correct (msg : String) :
    (quotaPhrases.any (fun p => strContains (lowerStr msg) p) = true →
      classifyError msg = ErrorType.quota) ∧
    (quotaPhrases.any (fun p => strContains (lowerStr msg) p) = false →
      authPhrases.any (fun p => strContains (lowerStr msg) p) = true →
      classifyError msg = ErrorType.auth) ∧
    (quotaPhrases.any (fun p => strContains (lowerStr msg) p) = false →
      authPhrases.any (fun p => strContains (lowerStr msg) p) = false →
      (strContains (lowerStr msg) ("404") || strContains (lowerStr msg) ("not found")) = true →
      classifyError msg = ErrorType.modelNotFound) ∧
    (quotaPhrases.any (fun p => strContains (lowerStr msg) p) = false →
      authPhrases.any (fun p => strContains (lowerStr msg) p) = false →
      (strContains (lowerStr msg) ("404") || strContains (lowerStr msg) ("not found")) = false →
      classifyError msg = ErrorType.other) ∧
    (∀ msg2 : String, lowerStr msg = lowerStr msg2 →
      classifyError msg = classifyError msg2) ∧
    (∀ (st : ComboStatus) (now : Nat),
      (updateComboStatusRecord now false (some ErrorType.quota) st).status
        = ComboState.quotaExceeded) ∧
    (∀ (st : ComboStatus) (now : Nat),
      (updateComboStatusRecord now false (some ErrorType.auth) st).status
        = ComboState.authError) ∧
    (∀ (st : ComboStatus) (now : Nat),
      (updateComboStatusRecord now false (some ErrorType.modelNotFound) st).status
        = ComboState.error) ∧
    (∀ (st : ComboStatus) (now : Nat),
      (updateComboStatusRecord now false (some ErrorType.other) st).status
        = ComboState.error) := by
  refine ⟨?_, ?_, ?_, ?_, ?_, ?_, ?_, ?_, ?_⟩
  · intro h
    simp [classifyError, h]
  · intro h1 h2
    simp [classifyError, h1, h2]
  · intro h1 h2 h3
    simp [classifyError, h1, h2, h3]
  · intro h1 h2 h3
    simp only [Bool.or_eq_false_iff] at h3
    simp [classifyError, h1, h2, h3.1, h3.2]
  · intro msg2 h
    simp only [classifyError]
    rw [h]
  · intro st now
    simp [updateComboStatusRecord]
  · intro st now
    simp [updateComboStatusRecord]
  · intro st now
    simp [updateComboStatusRecord]
  · intro st now
    simp [updateComboStatusRecord]

/-- C7 witness: a mixed-case quota message is classified as quota. -/
theorem errorClassification_correct_witness :
    classifyError ("QUOTA exceeded for today") = ErrorType.quota :=
  (errorClassification_correct ("QUOTA exceeded for today")).1 (by decide)

/-- C8 (amended): an operation sets `consecutive_failures` to 0 exactly when
it records a success for the combination or is a `reset()`: recording a
success always yields 0 regardless of the prior count, recording a failure
always yields the strictly positive old count plus one, and `reset()`
restores the count of every record to 0 without recording a success. -/
theorem consecutiveFailures_update (st : ComboStatus) (now : Nat) :
    (updateComboStatusRecord now true none st).consecutiveFailures = 0 ∧
    (∀ et : Option ErrorType,
      (updateComboStatusRecord now false et st).consecutiveFailures
        = st.consecutiveFailures + 1) ∧
    (∀ et : Option ErrorType,
      0 < (updateComboStatusRecord now false et st).consecutiveFailures) ∧
    (∀ (s : SCState) (key : String),
      ((resetClient s).combinationStatus key).consecutiveFailures = 0) := by
  refine ⟨by simp [updateComboStatusRecord], ?_, ?_, fun s key => rfl⟩
  · intro et
    rcases et with _ | et
    · simp [updateComboStatusRecord]
    · cases et <;> simp [updateComboStatusRecord]
  · intro et
    rcases et with _ | et
    · simp [updateComboStatusRecord]
    · cases et <;> simp [updateComboStatusRecord]

/-- C8 counterexample: after a reachable quota-exhausted call the first
combination has `consecutive_failures` 1, and `reset()` — an operation that
records no success outcome — sets it to 0, refuting the stated "if and only
if". -/
theorem reset_clears_consecutive_without_success :
    (clientAfterRateLimit.combinationStatus
      (getComboKey 0 ("models/gemini-2.0-flash"))).consecutiveFailures = 1 ∧
    ((resetClient clientAfterRateLimit).combinationStatus
      (getComboKey 0 ("models/gemini-2.0-flash"))).consecutiveFailures = 0 := by
  decide

/-- C9: the reported success rate is 0 whenever no request has been made
(no division is attempted), and 75 when 3 of 4 requests succeeded. -/
theorem successRate_correct (s : SCState) :
    (s.totalRequests = 0 → (getCurrentStatus s).successRate = 0) ∧
    (s.successfulRequests = 3 → s.totalRequests = 4 →
      (getCurrentStatus s).successRate = 75) := by
  constructor
  · intro h
    simp [getCurrentStatus, h]
  · intro h1 h2
    simp [getCurrentStatus, h1, h2]
    norm_num

/-- C9 witness: a state with 3 successes out of 4 requests reports 75. -/
theorem successRate_correct_witness :
    (getCurrentStatus statusDemoState).successRate = 75 :=
  (successRate_correct statusDemoState).2 rfl rfl

end SmartClient
